import Mathlib

/-!
Verification of the ICALPS migration pipeline's core business logic.

The definitions below are a shallow embedding of the Python sources of the
`icalps_pipeline` repository:

* `src/processors/business_transformation_processor.py` (deal-stage state
  machine `_transform_deal_stage` / `_map_active_stage`),
* `src/business_logic/pipeline_mapper.py` (`map_deal_stage`,
  `_calculate_mapping_confidence`),
* `src/business_logic/computed_columns.py` (`calculate_roi_metrics`),
* `src/processors/associations_processor.py` (communication and
  social-network association resolution),
* `src/processors/site_aggregation_processor.py` (company analysis,
  multi-site grouping, site/parent record synthesis).

Strings are modelled by Lean `String`, pandas numeric cells by `ℚ`
(the guarded arithmetic of the source involves only exact decimal
constants), nullable ids by `Option ℕ`.  Text fields are taken
post-`strip()`, as every consumer in the source strips its inputs before
branching.  Python's `str.lower()` is modelled on the ASCII range
(`lowerChar`), which covers the whole matching vocabulary of the source.
-/

namespace ICAlps

/-! ### Character-level string helpers (models of Python str operations) -/

/-- ASCII lower-casing of one character, the model of `str.lower()` used by
`_map_active_stage` and `_clean_domain` for their (ASCII) matching keys. -/
def lowerChar (c : Char) : Char :=
  if 65 ≤ c.toNat ∧ c.toNat ≤ 90 then Char.ofNat (c.toNat + 32) else c

/-- Lower-case a string (model of Python `s.lower()` on the ASCII range). -/
def strLower (s : String) : String := String.mk (s.toList.map lowerChar)

/-- Substring test on character lists: model of Python `needle in hay`. -/
def containsChars (needle : List Char) : List Char → Bool
  | [] => needle.isEmpty
  | c :: rest => List.isPrefixOf needle (c :: rest) || containsChars needle rest

/-- Substring test on strings: model of Python `needle in hay`. -/
def strContains (hay needle : String) : Bool := containsChars needle.toList hay.toList

/-- Split on spaces dropping empty pieces, the model of Python `s.split()`
used by `_extract_base_company_name` (whitespace = ' ' in the data). -/
def wordsAux (acc : List Char) : List Char → List (List Char)
  | [] => if acc.isEmpty then [] else [acc.reverse]
  | c :: rest =>
    if c = ' ' then
      if acc.isEmpty then wordsAux [] rest else acc.reverse :: wordsAux [] rest
    else wordsAux (c :: acc) rest

/-- The words of a string (Python `s.split()`). -/
def wordsOf (s : String) : List (List Char) := wordsAux [] s.toList

/-- Join words with single spaces (Python `' '.join(words)`). -/
def joinWords : List (List Char) → List Char
  | [] => []
  | [w] => w
  | w :: rest => w ++ ' ' :: joinWords rest

/-! ### Deal-stage state machine
(`BusinessTransformationProcessor._transform_deal_stage`,
`_map_active_stage`, `_determine_pipeline`) -/

/-- One opportunity row as read by `_transform_deal_stage`: the stripped
`Oppo_Status`, `Oppo_Stage`, numeric `Oppo_Certainty` (0 when missing or
unparsable) and stripped `Oppo_Type`. -/
structure OppoRow where
  status : String
  stage : String
  certainty : ℚ
  type : String
deriving DecidableEq

/-- Result triple of `_transform_deal_stage`:
`(hubspot_stage, deal_status, transformation_notes)`. -/
structure StageResult where
  stage : String
  status : String
  note : String
deriving DecidableEq

/-- `_determine_pipeline`: `Preetude` selects the Studies pipeline, every
other type (including empty) the Sales pipeline. -/
def determinePipeline (ty : String) : String :=
  if ty = "Preetude" then "Studies Pipeline" else "Sales Pipeline"

/-- The Studies-pipeline active-stage dictionary of `_map_active_stage`,
in Python dict insertion order. -/
def studiesActiveTable : List (String × String) :=
  [("identification", "01-Identification"),
   ("qualified", "02-Qualifiée"),
   ("evaluation technique", "03-Evaluation technique"),
   ("construction propositions", "04-Construction propositions"),
   ("construction offre", "04-Construction propositions"),
   ("negotiating", "05-Négociation"),
   ("negociation", "05-Négociation")]

/-- The Sales-pipeline active-stage dictionary of `_map_active_stage`,
in Python dict insertion order. -/
def salesActiveTable : List (String × String) :=
  [("identification", "Identified"),
   ("qualified", "Qualified"),
   ("evaluation technique", "Design In"),
   ("construction propositions", "Negotiate"),
   ("construction offre", "Negotiate"),
   ("negotiating", "Design Win"),
   ("negociation", "Design Win")]

/-- The active-stage dictionary selected by `oppo_type` in
`_map_active_stage`. -/
def activeStageTable (ty : String) : List (String × String) :=
  if ty = "Preetude" then studiesActiveTable else salesActiveTable

/-- `_map_active_stage`: lower-case the stage text, scan the pipeline's
dictionary in insertion order for the first key contained in the text
(Python `key in stage_clean`), and default to level 1 of the pipeline when
nothing matches. -/
def mapActiveStage (stage ty : String) : StageResult :=
  let sc := strLower stage
  match (activeStageTable ty).find? (fun kv => strContains sc kv.1) with
  | some kv =>
      ⟨kv.2, "In Progress",
        if ty = "Preetude" then "Mapped to Studies Pipeline" else "Mapped to Sales Pipeline"⟩
  | none =>
      if ty = "Preetude" then
        ⟨"01-Identification", "In Progress", "Default Studies Pipeline stage"⟩
      else
        ⟨"Identified", "In Progress", "Default Sales Pipeline stage"⟩

/-- `_transform_deal_stage`: the business rules 1-5 and the default
fallback, in source order. -/
def transformDealStage (r : OppoRow) : StageResult :=
  if (r.status = "Abandonne" ∨ r.status = "Abandonnee") ∧ r.certainty ≤ 10 then
    ⟨"Closed Dead", "Lost", "Moved to Closed Dead (abandoned + low certainty)"⟩
  else if r.status = "Won" then
    ⟨"Closed Won", "Won", "Deal successfully closed"⟩
  else if r.status = "Lost" ∨ r.status = "NoGo" then
    ⟨"Closed Lost", "Lost", "Deal closed as lost"⟩
  else if r.status = "Sleap" then
    if r.type = "Preetude" then
      ⟨"05-Négociation", "In Progress", "Deal on hold (Sleap)"⟩
    else
      ⟨"Design Win", "In Progress", "Deal on hold (Sleap)"⟩
  else if r.status = "In Progress" ∨ r.status = "" then
    mapActiveStage r.stage r.type
  else
    ⟨"Identified", "In Progress", "Default mapping applied"⟩

/-- A stage is closed when it is one of the three terminal labels produced
by `_transform_deal_stage`. -/
def isClosedStage (s : String) : Bool :=
  s == "Closed Won" || s == "Closed Lost" || s == "Closed Dead"

/-! ### PipelineMapper (`pipeline_mapper.py`)
`map_deal_stage` and `_calculate_mapping_confidence`. -/

/-- `studies_stage_mapping` of `PipelineMapper.setup_mapping_rules`
(exact-key dictionary, stage-enum values inlined). -/
def studiesStageExact : List (String × String) :=
  [("Identification", "01-Identification"),
   ("Qualified", "02-Qualifiée"),
   ("Qualifiée", "02-Qualifiée"),
   ("Evaluation technique", "03-Evaluation technique"),
   ("Construction propositions", "04-Construction propositions"),
   ("Negotiating", "05-Négociation"),
   ("Négociation", "05-Négociation")]

/-- `sales_stage_mapping` of `PipelineMapper.setup_mapping_rules`. -/
def salesStageExact : List (String × String) :=
  [("Identification", "Identified"),
   ("Qualified", "Qualified"),
   ("Qualifiée", "Qualified"),
   ("Evaluation technique", "Design in"),
   ("Construction propositions", "Negotiate"),
   ("Negotiating", "Design Win"),
   ("Négociation", "Design Win")]

/-- Every stage label `PipelineMapper.map_deal_stage` can emit (the
`DealStage` enum values reachable from its rules). -/
def pmAllStages : List String :=
  ["01-Identification", "02-Qualifiée", "03-Evaluation technique",
   "04-Construction propositions", "05-Négociation",
   "Identified", "Qualified", "Design in", "Negotiate", "Design Win",
   "closedwon", "closedlost"]

/-- The stage component of `PipelineMapper.map_deal_stage`: terminal
statuses first (`Won → closedwon`, `Lost/NoGo/Abandonne → closedlost`,
`Sleap → None`, falling through), then the exact active-stage dictionary
of the selected pipeline, then the level-1 default. -/
def pmFinalStage (status stage ty : String) : String :=
  if status = "Won" then "closedwon"
  else if status = "Lost" ∨ status = "NoGo" ∨ status = "Abandonne" then "closedlost"
  else
    let table := if ty = "Preetude" then studiesStageExact else salesStageExact
    match table.find? (fun kv => kv.1 == stage) with
    | some kv => kv.2
    | none => if ty = "Preetude" then "01-Identification" else "Identified"

/-- `PipelineMapper.map_deal_stage`: every branch of the source returns
`(pipeline.value, stage)` with the same `pipeline`.  Total by
construction: every input yields a `(pipeline, stage)` pair. -/
def pmMapDealStage (status stage ty : String) : String × String :=
  (determinePipeline ty, pmFinalStage status stage ty)

/-- `PipelineMapper._calculate_mapping_confidence`, sequentially as in the
source: start at 1.0, subtract for missing fields, boost capped at 1.0 for
Won/Lost, floor at 0.1. -/
def calculateMappingConfidence (status stage ty : String) : ℚ :=
  let c0 : ℚ := 1
  let c1 := if status = "" then c0 - 2/10 else c0
  let c2 := if stage = "" then c1 - 2/10 else c1
  let c3 := if ty = "" then c2 - 1/10 else c2
  let c4 := if status = "Won" ∨ status = "Lost" then min 1 (c3 + 2/10) else c3
  max (1/10) c4

/-- The confidence formula exactly as the claim words it (start at 1.0,
subtract 0.2 / 0.2 / 0.1 for missing status / stage / type, add 0.2 capped
at 1.0 for Won or Lost, floor at 0.1), for comparison with the source's
sequential computation. -/
def confidenceSpecFormula (status stage ty : String) : ℚ :=
  let base : ℚ :=
    1 - (if status = "" then 2/10 else 0) - (if stage = "" then 2/10 else 0)
      - (if ty = "" then 1/10 else 0)
  let boosted : ℚ := if status = "Won" ∨ status = "Lost" then min 1 (base + 2/10) else base
  max (1/10) boosted

/-! ### Computed columns (`computed_columns.py`, `calculate_roi_metrics`) -/

/-- The numeric inputs of `calculate_roi_metrics` after
`pd.to_numeric(...).fillna(0)`: `Oppo_Forecast` and `oppo_cout`. -/
structure FinanceRow where
  forecast : ℚ
  cost : ℚ
deriving DecidableEq

/-- `net_amount = Oppo_Forecast - oppo_cout` (`calculate_net_amount`). -/
def netAmount (r : FinanceRow) : ℚ := r.forecast - r.cost

/-- `margin_percentage`: `net_amount / forecast * 100` on the mask
`forecast > 0`, and the pre-initialised 0.0 elsewhere. -/
def marginPercentage (r : FinanceRow) : ℚ :=
  if 0 < r.forecast then netAmount r / r.forecast * 100 else 0

/-- `roi_percentage`: `net_amount / cost * 100` on the mask `cost > 0`,
and the pre-initialised 0.0 elsewhere. -/
def roiPercentage (r : FinanceRow) : ℚ :=
  if 0 < r.cost then netAmount r / r.cost * 100 else 0

/-! ### Association resolution (`associations_processor.py`) -/

/-- A company row as used by the lookup builders
(`Comp_CompanyId`, `Comp_Name`). -/
structure CompanyRec where
  id : ℕ
  name : String
deriving DecidableEq

/-- A contact row as used by the lookup builders
(`Pers_PersonId` and name/email fields). -/
structure ContactRec where
  id : ℕ
  firstName : String
  lastName : String
  email : String
deriving DecidableEq

/-- A communication row's reference fields: `Comm_CommunicationId` plus the
nullable `Comp_CompanyId` and `Pers_PersonId` (NaN modelled as `none`). -/
structure CommRow where
  commId : ℕ
  companyId : Option ℕ
  personId : Option ℕ
deriving DecidableEq

/-- `company_association_status` of
`process_communications_with_associations`:
`SUCCESS` iff the cell is non-null and the id is in the company lookup. -/
def companyAssociationStatus (companies : List CompanyRec) (cid : Option ℕ) : String :=
  match cid with
  | some x => if companies.any (fun c => c.id == x) then "SUCCESS" else "NO_COMPANY_FOUND"
  | none => "NO_COMPANY_FOUND"

/-- `contact_association_status` of
`process_communications_with_associations`:
`SUCCESS` iff the cell is non-null and the id is in the contact lookup. -/
def contactAssociationStatus (contacts : List ContactRec) (pid : Option ℕ) : String :=
  match pid with
  | some x => if contacts.any (fun p => p.id == x) then "SUCCESS" else "NO_CONTACT_FOUND"
  | none => "NO_CONTACT_FOUND"

/-- The pair of per-target association statuses recorded for one
communication row. -/
def communicationStatuses (companies : List CompanyRec) (contacts : List ContactRec)
    (row : CommRow) : String × String :=
  (companyAssociationStatus companies row.companyId,
   contactAssociationStatus contacts row.personId)

/-! ### Social-network associations
(`process_social_networks_with_associations` and its helpers) -/

/-- One social-network row: `sone_networklink`, `Related_TableID`
(5 = company, 13 = person) and `Related_RecordID`. -/
structure SocialRow where
  link : String
  tableId : ℕ
  recordId : ℕ
deriving DecidableEq

/-- One output association record (the claim-relevant columns of the
result frame). -/
structure SocialAssoc where
  networkLink : String
  entityType : String
  entityName : String
  associationStatus : String
  hubspotPropertyTarget : Option String
deriving DecidableEq

/-- `entity_type`: `Related_TableID` mapped through `{5: Company,
13: Person}` with fillna `Unknown`. -/
def entityTypeOf (tid : ℕ) : String :=
  if tid = 5 then "Company" else if tid = 13 then "Person" else "Unknown"

/-- `_resolve_entity_name`: company name, trimmed contact full name, or the
`Company_`/`Contact_`/`Unknown Entity` fallbacks. -/
def resolveEntityName (companies : List CompanyRec) (contacts : List ContactRec)
    (row : SocialRow) : String :=
  if row.tableId = 5 then
    match companies.find? (fun c => c.id == row.recordId) with
    | some c => c.name
    | none => "Company_" ++ toString row.recordId
  else if row.tableId = 13 then
    match contacts.find? (fun p => p.id == row.recordId) with
    | some p =>
        if p.firstName = "" ∧ p.lastName = "" then "Contact_" ++ toString row.recordId
        else if p.firstName = "" then p.lastName
        else if p.lastName = "" then p.firstName
        else p.firstName ++ " " ++ p.lastName
    | none => "Contact_" ++ toString row.recordId
  else "Unknown Entity"

/-- `_check_association_status`: per-discriminator lookup, never raising;
unknown discriminators yield `UNKNOWN_ENTITY_TYPE`. -/
def checkAssociationStatus (companies : List CompanyRec) (contacts : List ContactRec)
    (row : SocialRow) : String :=
  if row.tableId = 5 then
    if companies.any (fun c => c.id == row.recordId) then "SUCCESS" else "NO_COMPANY_FOUND"
  else if row.tableId = 13 then
    if contacts.any (fun p => p.id == row.recordId) then "SUCCESS" else "NO_CONTACT_FOUND"
  else "UNKNOWN_ENTITY_TYPE"

/-- `_determine_hubspot_property`: first matching URL-pattern rule wins,
default `website`.  The LinkedIn branch returns `None` in the source when
the table id is neither 13 nor 5, hence the `Option`. -/
def determineHubspotProperty (row : SocialRow) : Option String :=
  let link := strLower row.link
  if strContains link "in/" || strContains link "linkedin.com" then
    if row.tableId = 13 then some "linkedin_bio"
    else if row.tableId = 5 then some "linkedin_company_page"
    else none
  else if strContains link "company/" || strContains link ".com" || strContains link ".org"
      || strContains link ".net" || strContains link ".fr" then
    some "website"
  else if strContains link "twitter.com" || strContains link "x.com" then
    some "twitterhandle"
  else if strContains link "facebook.com" then
    if row.tableId = 5 then some "facebook_company_page" else some "hs_facebookid"
  else some "website"

/-- One output record of `process_social_networks_with_associations`. -/
def mkSocialAssoc (companies : List CompanyRec) (contacts : List ContactRec)
    (row : SocialRow) : SocialAssoc :=
  ⟨row.link, entityTypeOf row.tableId, resolveEntityName companies contacts row,
   checkAssociationStatus companies contacts row, determineHubspotProperty row⟩

/-- `process_social_networks_with_associations`: drop the `#AUTO#`
placeholder rows, then resolve each remaining row. -/
def processSocialNetworks (rows : List SocialRow) (companies : List CompanyRec)
    (contacts : List ContactRec) : List SocialAssoc :=
  (rows.filter (fun r => r.link != "#AUTO#")).map (mkSocialAssoc companies contacts)

/-! ### Site aggregation (`site_aggregation_processor.py`) -/

/-- Strict lexicographic order on character lists by code point, the order
pandas uses on string group keys. -/
def lexLt : List Char → List Char → Bool
  | [], [] => false
  | [], _ :: _ => true
  | _ :: _, [] => false
  | a :: as, b :: bs =>
    if a.toNat < b.toNat then true
    else if b.toNat < a.toNat then false
    else lexLt as bs

/-- Non-strict lexicographic order on `(base_company_name, domain_clean)`
pairs: the sort key of the pandas `groupby(['base_company_name',
'domain_clean'])` result. -/
def keyLe (a b : String × String) : Prop :=
  lexLt a.1.toList b.1.toList = true ∨
    (a.1 = b.1 ∧ lexLt b.2.toList a.2.toList = false)

instance : DecidableRel keyLe := fun a b => by unfold keyLe; exact inferInstance

/-- A raw company row (`Comp_CompanyId`, stripped `Comp_Name`,
`Comp_Website`; missing cells as empty strings). -/
structure RawCompany where
  companyId : ℕ
  name : String
  website : String
deriving DecidableEq

/-- An analysed company row: the output of `_analyze_companies` with the
derived `base_company_name` and `domain_clean` columns. -/
structure CompanyRow where
  companyId : ℕ
  baseName : String
  domain : String
deriving DecidableEq

/-- A contact row as consumed by the contact lookup
(`Pers_PersonId`, nullable `Comp_CompanyId`). -/
structure ContactRow where
  personId : ℕ
  companyId : Option ℕ
deriving DecidableEq

/-- The location/entity-suffix vocabulary of
`_extract_base_company_name`. -/
def locationIndicators : List String :=
  ["grenoble", "paris", "lyon", "toulouse", "hq", "headquarters",
   "usa", "france", "germany", "uk", "switzerland", "italy",
   "north", "south", "east", "west", "corp", "inc", "ltd", "sa"]

/-- `_extract_base_company_name`: when the name has several words and the
lower-cased last word contains a location indicator, drop the last word;
otherwise keep the full name. -/
def extractBaseCompanyName (name : String) : String :=
  if name = "" then ""
  else
    let words := wordsOf name
    if 2 ≤ words.length then
      let lastWord := (words.getLast?.getD []).map lowerChar
      if locationIndicators.any (fun ind => containsChars ind.toList lastWord) then
        String.mk (joinWords (words.dropLast))
      else name
    else name

/-- `_clean_domain`: sentinel for empty/NULL/NaN, lower-case, strip
`http(s)://` and `www.`, cut at the first `/` and `:`, sentinel again when
nothing is left. -/
def cleanDomain (website : String) : String :=
  if website = "" ∨ website = "NULL" ∨ website = "NaN" then "no-domain"
  else
    let d0 := (strLower website).toList
    let d1 := if List.isPrefixOf "https://".toList d0 then d0.drop 8
              else if List.isPrefixOf "http://".toList d0 then d0.drop 7
              else d0
    let d2 := if List.isPrefixOf "www.".toList d1 then d1.drop 4 else d1
    let d3 := d2.takeWhile (fun c => c ≠ '/')
    let d4 := d3.takeWhile (fun c => c ≠ ':')
    if d4.isEmpty then "no-domain" else String.mk d4

/-- `_analyze_companies` on one row: derive `base_company_name` and
`domain_clean`. -/
def analyzeCompany (c : RawCompany) : CompanyRow :=
  ⟨c.companyId, extractBaseCompanyName c.name, cleanDomain c.website⟩

/-- The clustering key `(base_company_name, domain_clean)` of one analysed
row. -/
def key (c : CompanyRow) : String × String := (c.baseName, c.domain)

/-- Number of member companies of one clustering key (the `site_count`
aggregate of `_identify_domain_groups`). -/
def siteCount (cs : List CompanyRow) (k : String × String) : ℕ :=
  cs.countP (fun c => decide (key c = k))

/-- The distinct clustering keys in pandas `groupby` order: deduplicated
and sorted by base name then domain. -/
def sortedKeys (cs : List CompanyRow) : List (String × String) :=
  List.insertionSort keyLe (cs.map key).dedup

/-- The keys kept by `_identify_domain_groups` (`site_count > 1`), still in
sorted order. -/
def multiSiteKeys (cs : List CompanyRow) : List (String × String) :=
  (sortedKeys cs).filter (fun k => decide (1 < siteCount cs k))

/-- `companies_analysis['Comp_CompanyId'].max()` (0 on the empty frame). -/
def maxCompanyId (cs : List CompanyRow) : ℕ :=
  cs.foldl (fun m c => max m c.companyId) 0

/-- One multi-site group with its freshly allocated parent id
(a row of the `_identify_domain_groups` result). -/
structure DomainGroup where
  baseName : String
  domain : String
  parentId : ℕ
deriving DecidableEq

/-- The clustering key of a group row. -/
def groupKey (g : DomainGroup) : String × String := (g.baseName, g.domain)

/-- `_identify_domain_groups`: the multi-site keys, each given the next id
from `range(max_company_id + 1, ...)` in group order. -/
def domainGroups (cs : List CompanyRow) : List DomainGroup :=
  (multiSiteKeys cs).enum.map (fun ik => ⟨ik.2.1, ik.2.2, maxCompanyId cs + 1 + ik.1⟩)

/-- `contact_count` of one company: the per-`Comp_CompanyId` contact count
of the contact lookup, 0 after the left-merge `fillna` when the company has
no contacts. -/
def contactCountOf (cts : List ContactRow) (cid : ℕ) : ℕ :=
  cts.countP (fun p => decide (p.companyId = some cid))

/-- One output row of the aggregation result (the claim-relevant columns
of `_create_site_records` / `_create_parent_records`). -/
structure AggRecord where
  companyId : ℕ
  parentCompanyId : Option ℕ
  baseName : String
  domain : String
  recordType : String
  hasMultipleSites : Bool
  siteOrder : ℕ
  contactCount : ℕ
  processedDate : String
deriving DecidableEq

/-- One site record of `_create_site_records`: `parent_company_id` is the
group's new parent id or, via `fillna`, the company's own id;
`record_type` is `Site` for grouped rows and `Standalone` otherwise;
`has_multiple_sites` is the merged flag with `fillna(False)`; `site_order`
is the 1-based `cumcount` rank within the group. -/
def mkSiteRecord (groups : List DomainGroup) (cts : List ContactRow) (now : String)
    (c : CompanyRow) (ord : ℕ) : AggRecord :=
  let pg := groups.find? (fun g => decide (groupKey g = key c))
  ⟨c.companyId,
   some (match pg with | some g => g.parentId | none => c.companyId),
   c.baseName, c.domain,
   (match pg with | some _ => "Site" | none => "Standalone"),
   pg.isSome, ord, contactCountOf cts c.companyId, now⟩

/-- `_create_site_records` row by row; `prev` carries the rows already
emitted so that `site_order` is `1 +` the number of earlier rows with the
same key (`groupby(...).cumcount() + 1`). -/
def siteRecordsAux (groups : List DomainGroup) (cts : List ContactRow) (now : String) :
    List CompanyRow → List CompanyRow → List AggRecord
  | [], _ => []
  | c :: rest, prev =>
    mkSiteRecord groups cts now c (1 + prev.countP (fun d => decide (key d = key c)))
      :: siteRecordsAux groups cts now rest (prev ++ [c])

/-- `_create_site_records` over the analysed companies. -/
def siteRecords (cs : List CompanyRow) (cts : List ContactRow) (now : String) :
    List AggRecord :=
  siteRecordsAux (domainGroups cs) cts now cs []

/-- `_create_parent_records`: one `Parent_Aggregator` row per group with
`site_order = 0` and `contact_count` summed over the group's member
companies. -/
def parentRecords (cs : List CompanyRow) (cts : List ContactRow) (now : String) :
    List AggRecord :=
  (domainGroups cs).map (fun g =>
    ⟨g.parentId, none, g.baseName, g.domain, "Parent_Aggregator", true, 0,
     ((cs.filter (fun c => decide (key c = groupKey g))).map
        (fun c => contactCountOf cts c.companyId)).sum,
     now⟩)

/-- `_create_company_aggregation`: site records followed by parent
records (the `pd.concat` order). -/
def siteAggregation (cs : List CompanyRow) (cts : List ContactRow) (now : String) :
    List AggRecord :=
  siteRecords cs cts now ++ parentRecords cs cts now

/-- `process_site_aggregation`: analyse the raw companies, then build the
aggregation; `now` stands for the wall-clock `processed_date` stamp, the
only run-dependent input. -/
def processSiteAggregation (raw : List RawCompany) (cts : List ContactRow)
    (now : String) : List AggRecord :=
  siteAggregation (raw.map analyzeCompany) cts now

/-! ### Concrete sample data (used to instantiate the general theorems) -/

/-- The worked example of the specification: two Acme sites sharing the
`a.com` domain and one standalone company. -/
def demoRawCompanies : List RawCompany :=
  [⟨1, "Acme Grenoble", "a.com/fr"⟩, ⟨2, "Acme Paris", "a.com/en"⟩,
   ⟨3, "Beta Corp", "beta.io"⟩]

/-- The analysed demo companies. -/
def demoAnalyzed : List CompanyRow := demoRawCompanies.map analyzeCompany

/-- Demo contacts: two at company 1, one at company 2. -/
def demoContacts : List ContactRow := [⟨11, some 1⟩, ⟨12, some 1⟩, ⟨13, some 2⟩]

/-- Demo company lookup for association resolution. -/
def demoCompanyRecs : List CompanyRec := [⟨1, "Acme"⟩]

/-- Demo contact lookup for association resolution. -/
def demoContactRecs : List ContactRec := [⟨7, "Ann", "Lee", "ann@acme.example"⟩]

/-- A communication row with a known company id and an unknown contact
id. -/
def demoCommRow : CommRow := ⟨100, some 1, some 99⟩

/-- Demo social rows: one `#AUTO#` placeholder and one resolvable link. -/
def demoSocialRows : List SocialRow :=
  [⟨"#AUTO#", 5, 1⟩, ⟨"https://linkedin.com/in/ann", 13, 7⟩]

/-! ## Theorems -/

/-! ### Order lemmas for the clustering-key sort -/

theorem lexLt_irrefl (a : List Char) : lexLt a a = false := by
  induction a with
  | nil => rfl
  | cons c t ih => simp [lexLt, ih]

theorem lexLt_asymm : ∀ a b : List Char, lexLt a b = true → lexLt b a = false
  | [], [], h => by simp [lexLt] at h
  | [], _ :: _, _ => rfl
  | _ :: _, [], h => by simp [lexLt] at h
  | a :: as, b :: bs, h => by
    by_cases h1 : a.toNat < b.toNat
    · simp [lexLt, h1, Nat.lt_asymm h1]
    · by_cases h2 : b.toNat < a.toNat
      · simp [lexLt, h1, h2] at h
      · simp only [lexLt, if_neg h1, if_neg h2] at h
        simp [lexLt, h1, h2, lexLt_asymm as bs h]

theorem lexLt_trans : ∀ a b c : List Char,
    lexLt a b = true → lexLt b c = true → lexLt a c = true
  | [], b, [], h1, h2 => by
    cases b with
    | nil => simp [lexLt] at h1
    | cons x xs => simp [lexLt] at h2
  | [], _, _ :: _, _, _ => rfl
  | _ :: _, [], _, h1, _ => by simp [lexLt] at h1
  | _ :: _, _ :: _, [], _, h2 => by simp [lexLt] at h2
  | a :: as, b :: bs, c :: cs, h1, h2 => by
    by_cases hab : a.toNat < b.toNat
    · by_cases hbc : b.toNat < c.toNat
      · simp [lexLt, Nat.lt_trans hab hbc]
      · by_cases hcb : c.toNat < b.toNat
        · simp [lexLt, hbc, hcb] at h2
        · have : b.toNat = c.toNat := Nat.le_antisymm (Nat.le_of_not_lt hcb) (Nat.le_of_not_lt hbc)
          simp [lexLt, this ▸ hab]
    · by_cases hba : b.toNat < a.toNat
      · simp [lexLt, hab, hba] at h1
      · have hab' : a.toNat = b.toNat := Nat.le_antisymm (Nat.le_of_not_lt hba) (Nat.le_of_not_lt hab)
        simp only [lexLt, if_neg hab, if_neg hba] at h1
        by_cases hbc : b.toNat < c.toNat
        · simp [lexLt, hab' ▸ hbc]
        · by_cases hcb : c.toNat < b.toNat
          · simp [lexLt, hbc, hcb] at h2
          · simp only [lexLt, if_neg hbc, if_neg hcb] at h2
            have hac : ¬a.toNat < c.toNat := hab' ▸ hbc
            have hca : ¬c.toNat < a.toNat := hab' ▸ hcb
            simp [lexLt, hac, hca, lexLt_trans as bs cs h1 h2]

theorem lexLt_connex : ∀ a b : List Char,
    lexLt a b = false → lexLt b a = false → a = b
  | [], [], _, _ => rfl
  | [], _ :: _, h1, _ => by simp [lexLt] at h1
  | _ :: _, [], _, h2 => by simp [lexLt] at h2
  | a :: as, b :: bs, h1, h2 => by
    by_cases hab : a.toNat < b.toNat
    · simp [lexLt, hab] at h1
    · by_cases hba : b.toNat < a.toNat
      · simp [lexLt, hba] at h2
      · have he : a = b :=
          Char.eq_of_val_eq (UInt32.ext
            (Nat.le_antisymm (Nat.le_of_not_lt hba) (Nat.le_of_not_lt hab)))
        simp only [lexLt, if_neg hab, if_neg hba] at h1
        simp only [lexLt, if_neg hba, if_neg hab] at h2
        rw [he, lexLt_connex as bs h1 h2]

theorem lexLt_false_trans (a b c : List Char)
    (h1 : lexLt b a = false) (h2 : lexLt c b = false) : lexLt c a = false := by
  cases hca : lexLt c a with
  | false => rfl
  | true =>
    cases hab : lexLt a b with
    | true => simp [lexLt_trans c a b hca hab] at h2
    | false =>
      have he : a = b := lexLt_connex a b hab h1
      subst he
      simp [hca] at h2

theorem keyLe_total : ∀ a b : String × String, keyLe a b ∨ keyLe b a := by
  intro a b
  cases h1 : lexLt a.1.toList b.1.toList with
  | true => exact Or.inl (Or.inl h1)
  | false =>
    cases h2 : lexLt b.1.toList a.1.toList with
    | true => exact Or.inr (Or.inl h2)
    | false =>
      have he : a.1 = b.1 := String.toList_inj.mp (lexLt_connex _ _ h1 h2)
      cases h3 : lexLt b.2.toList a.2.toList with
      | false => exact Or.inl (Or.inr ⟨he, h3⟩)
      | true => exact Or.inr (Or.inr ⟨he.symm, lexLt_asymm _ _ h3⟩)

theorem keyLe_trans : ∀ a b c : String × String, keyLe a b → keyLe b c → keyLe a c := by
  rintro a b c (h1 | ⟨he1, h1⟩) (h2 | ⟨he2, h2⟩)
  · exact Or.inl (lexLt_trans _ _ _ h1 h2)
  · exact Or.inl (by rw [← he2]; exact h1)
  · exact Or.inl (by rw [he1]; exact h2)
  · exact Or.inr ⟨he1.trans he2, lexLt_false_trans _ _ _ h1 h2⟩

/-! ### Structure lemmas for the site aggregation -/

theorem parent_keys_eq (cs : List CompanyRow) (cts : List ContactRow) (now : String) :
    (parentRecords cs cts now).map (fun p => (p.baseName, p.domain)) = multiSiteKeys cs := by
  simp only [parentRecords, domainGroups, List.map_map]
  exact List.enum_map_snd _

theorem parent_ids_eq (cs : List CompanyRow) (cts : List ContactRow) (now : String) :
    (parentRecords cs cts now).map (fun p => p.companyId)
      = (List.range (multiSiteKeys cs).length).map (fun i => maxCompanyId cs + 1 + i) := by
  simp only [parentRecords, domainGroups, List.map_map]
  rw [← List.enum_map_fst (multiSiteKeys cs), List.map_map]
  rfl

theorem mem_sortedKeys (cs : List CompanyRow) (k : String × String) :
    k ∈ sortedKeys cs ↔ ∃ c ∈ cs, key c = k := by
  rw [sortedKeys, List.mem_insertionSort, List.mem_dedup, List.mem_map]

theorem multiSiteKeys_iff (cs : List CompanyRow) (k : String × String) :
    k ∈ multiSiteKeys cs ↔ 2 ≤ siteCount cs k := by
  rw [multiSiteKeys, List.mem_filter]
  constructor
  · rintro ⟨-, h⟩
    exact of_decide_eq_true h
  · intro h
    refine ⟨?_, decide_eq_true h⟩
    rw [mem_sortedKeys]
    have hpos : 0 < List.countP (fun c => decide (key c = k)) cs :=
      lt_of_lt_of_le (by norm_num) h
    obtain ⟨c, hc, hp⟩ := List.countP_pos_iff.mp hpos
    exact ⟨c, hc, of_decide_eq_true hp⟩

theorem sortedKeys_nodup (cs : List CompanyRow) : (sortedKeys cs).Nodup :=
  (List.perm_insertionSort keyLe _).symm.nodup (List.nodup_dedup _)

theorem multiSiteKeys_nodup (cs : List CompanyRow) : (multiSiteKeys cs).Nodup :=
  (sortedKeys_nodup cs).filter _

theorem multiSiteKeys_sorted (cs : List CompanyRow) :
    List.Sorted keyLe (multiSiteKeys cs) := by
  haveI : IsTotal (String × String) keyLe := ⟨keyLe_total⟩
  haveI : IsTrans (String × String) keyLe := ⟨keyLe_trans⟩
  exact List.Pairwise.sublist (List.filter_sublist _) (List.sorted_insertionSort keyLe _)

theorem siteRecordsAux_proj (groups : List DomainGroup) (cts : List ContactRow)
    (now1 now2 : String) :
    ∀ cs prev : List CompanyRow,
      (siteRecordsAux groups cts now1 cs prev).map
          (fun r => (r.companyId, r.parentCompanyId, r.siteOrder))
        = (siteRecordsAux groups cts now2 cs prev).map
            (fun r => (r.companyId, r.parentCompanyId, r.siteOrder)) := by
  intro cs
  induction cs with
  | nil => intro prev; rfl
  | cons c rest ih =>
    intro prev
    simp only [siteRecordsAux, List.map_cons]
    rw [ih]
    rfl

theorem siteRecordsAux_filter_key (groups : List DomainGroup) (cts : List ContactRow)
    (now : String) (k : String × String) :
    ∀ cs prev : List CompanyRow,
      ((siteRecordsAux groups cts now cs prev).filter
          (fun r => decide ((r.baseName, r.domain) = k))).map (fun r => r.contactCount)
        = (cs.filter (fun c => decide (key c = k))).map
            (fun c => contactCountOf cts c.companyId) := by
  intro cs
  induction cs with
  | nil => intro prev; rfl
  | cons c rest ih =>
    intro prev
    simp only [siteRecordsAux, List.filter_cons, mkSiteRecord, key]
    by_cases hk : (c.baseName, c.domain) = k
    · simp [hk, ih, key]
    · simp [hk, ih, key]

/-- C4: exactly the `(base_name, domain)` clustering keys with at least 2
member companies get one synthesized `Parent_Aggregator` record each
(single-member keys get none); the new parent ids are the consecutive
integers `max existing id + 1, + 2, …` allocated in the stable order of
the keys sorted by base name then domain. -/
theorem C4_parent_synthesis (cs : List CompanyRow) (cts : List ContactRow) (now : String) :
    (∀ k : String × String,
      (∃ p ∈ parentRecords cs cts now, (p.baseName, p.domain) = k) ↔ 2 ≤ siteCount cs k) ∧
    ((parentRecords cs cts now).map (fun p => (p.baseName, p.domain))).Nodup ∧
    (parentRecords cs cts now).map (fun p => p.companyId)
      = (List.range (multiSiteKeys cs).length).map (fun i => maxCompanyId cs + 1 + i) ∧
    List.Sorted keyLe ((parentRecords cs cts now).map (fun p => (p.baseName, p.domain))) ∧
    (∀ p ∈ parentRecords cs cts now,
      p.recordType = "Parent_Aggregator" ∧ p.siteOrder = 0 ∧ p.hasMultipleSites = true) := by
  refine ⟨fun k => ?_, ?_, parent_ids_eq cs cts now, ?_, fun p hp => ?_⟩
  · rw [← multiSiteKeys_iff, ← parent_keys_eq cs cts now]
    exact List.mem_map.symm
  · rw [parent_keys_eq]
    exact multiSiteKeys_nodup cs
  · rw [parent_keys_eq]
    exact multiSiteKeys_sorted cs
  · obtain ⟨g, hg, rfl⟩ := List.mem_map.mp hp
    exact ⟨rfl, rfl, rfl⟩

/-- Closed witness for C4 on the specification's worked example: the two
Acme sites yield one parent keyed `("Acme", "a.com")` with the fresh id
`4 = max(1,2,3) + 1`, and the standalone Beta gets no parent record. -/
theorem C4_parent_synthesis_witness :
    (∃ p ∈ parentRecords demoAnalyzed demoContacts "01/01/2025",
      (p.baseName, p.domain) = ("Acme", "a.com")) ∧
    (parentRecords demoAnalyzed demoContacts "01/01/2025").map (fun p => p.companyId) = [4] ∧
    ¬(∃ p ∈ parentRecords demoAnalyzed demoContacts "01/01/2025",
      (p.baseName, p.domain) = ("Beta", "beta.io")) := by
  have h := C4_parent_synthesis demoAnalyzed demoContacts "01/01/2025"
  refine ⟨(h.1 _).mpr (by decide), ?_, fun hx => absurd ((h.1 _).mp hx) (by decide)⟩
  rw [h.2.2.1]
  decide

/-- C5: running the site aggregation twice on identical company and
contact inputs yields identical deterministic output fields — the same
company id, parent id and `site_order` for every record — whatever the
wall-clock `processed_date` stamps of the two runs are. -/
theorem C5_two_run_determinism (raw : List RawCompany) (cts : List ContactRow)
    (now1 now2 : String) :
    (processSiteAggregation raw cts now1).map
        (fun r => (r.companyId, r.parentCompanyId, r.siteOrder))
      = (processSiteAggregation raw cts now2).map
          (fun r => (r.companyId, r.parentCompanyId, r.siteOrder)) := by
  unfold processSiteAggregation siteAggregation siteRecords
  rw [List.map_append, List.map_append, siteRecordsAux_proj]
  congr 1
  simp only [parentRecords, List.map_map]
  rfl

/-- C6: for every multi-site group, the `Parent_Aggregator` record's
`contact_count` equals the sum of `contact_count` over that group's member
site records. -/
theorem C6_contact_count_roundtrip (cs : List CompanyRow) (cts : List ContactRow)
    (now : String) :
    ∀ p ∈ parentRecords cs cts now,
      (((siteRecords cs cts now).filter
          (fun r => decide ((r.baseName, r.domain) = (p.baseName, p.domain)))).map
        (fun r => r.contactCount)).sum = p.contactCount := by
  intro p hp
  obtain ⟨g, hg, rfl⟩ := List.mem_map.mp hp
  rw [siteRecords, siteRecordsAux_filter_key]
  rfl

/-- Closed witness for C6 on the worked example: the Acme parent's
contact count 3 equals the sum 2 + 1 over its two member sites. -/
theorem C6_contact_count_roundtrip_witness :
    (((siteRecords demoAnalyzed demoContacts "d").filter
        (fun r => decide ((r.baseName, r.domain) = ("Acme", "a.com")))).map
      (fun r => r.contactCount)).sum = 3 :=
  C6_contact_count_roundtrip demoAnalyzed demoContacts "d"
    ⟨4, none, "Acme", "a.com", "Parent_Aggregator", true, 0, 3, "d"⟩ (by decide)

/-- C1: the stage mapper's terminal-status table: `Won → Closed Won`,
`Lost`/`NoGo → Closed Lost`, `Abandonne`/`Abandonnee` with certainty ≤ 10
→ `Closed Dead`, and `Abandonne`/`Abandonnee` with certainty > 10 is
treated as active, yielding a non-closed stage — for every stage text,
type and certainty. -/
theorem C1_terminal_status_table (st ty : String) (c : ℚ) :
    (transformDealStage ⟨"Won", st, c, ty⟩).stage = "Closed Won" ∧
    (transformDealStage ⟨"Lost", st, c, ty⟩).stage = "Closed Lost" ∧
    (transformDealStage ⟨"NoGo", st, c, ty⟩).stage = "Closed Lost" ∧
    (c ≤ 10 →
      (transformDealStage ⟨"Abandonne", st, c, ty⟩).stage = "Closed Dead" ∧
      (transformDealStage ⟨"Abandonnee", st, c, ty⟩).stage = "Closed Dead") ∧
    (10 < c →
      isClosedStage (transformDealStage ⟨"Abandonne", st, c, ty⟩).stage = false ∧
      (transformDealStage ⟨"Abandonne", st, c, ty⟩).status = "In Progress" ∧
      isClosedStage (transformDealStage ⟨"Abandonnee", st, c, ty⟩).stage = false) := by
  refine ⟨?_, ?_, ?_, fun h => ⟨?_, ?_⟩, fun h => ⟨?_, ?_, ?_⟩⟩
  · simp [transformDealStage]
  · simp [transformDealStage]
  · simp [transformDealStage]
  · simp [transformDealStage, h]
  · simp [transformDealStage, h]
  · simp [transformDealStage, h.not_le]
    decide
  · simp [transformDealStage, h.not_le]
  · simp [transformDealStage, h.not_le]
    decide

/-- Closed witness for C1 at concrete inputs: certainty 5 is abandoned to
`Closed Dead`, certainty 50 stays active. -/
theorem C1_terminal_status_table_witness :
    (transformDealStage ⟨"Won", "Qualified", 50, "FTK"⟩).stage = "Closed Won" ∧
    (transformDealStage ⟨"Abandonne", "Qualified", 5, "FTK"⟩).stage = "Closed Dead" ∧
    isClosedStage (transformDealStage ⟨"Abandonne", "Qualified", 50, "FTK"⟩).stage = false :=
  ⟨(C1_terminal_status_table "Qualified" "FTK" 50).1,
   ((C1_terminal_status_table "Qualified" "FTK" 5).2.2.2.1 (by norm_num)).1,
   ((C1_terminal_status_table "Qualified" "FTK" 50).2.2.2.2 (by norm_num)).1⟩

/-- C2: status `Sleap` always routes to the fixed per-pipeline hold stage
(`05-Négociation` for `Preetude`, `Design Win` otherwise) with deal status
`In Progress` and never a closed stage, regardless of the stage text and
certainty. -/
theorem C2_sleap_hold_stage (st ty : String) (c : ℚ) :
    (transformDealStage ⟨"Sleap", st, c, ty⟩).status = "In Progress" ∧
    (transformDealStage ⟨"Sleap", st, c, ty⟩).stage =
      (if ty = "Preetude" then "05-Négociation" else "Design Win") ∧
    isClosedStage (transformDealStage ⟨"Sleap", st, c, ty⟩).stage = false := by
  have h : transformDealStage ⟨"Sleap", st, c, ty⟩ =
      if ty = "Preetude" then ⟨"05-Négociation", "In Progress", "Deal on hold (Sleap)"⟩
      else ⟨"Design Win", "In Progress", "Deal on hold (Sleap)"⟩ := by
    simp [transformDealStage]
  refine ⟨?_, ?_, ?_⟩ <;> rw [h] <;> split_ifs <;> decide

/-- C3: for every `(status, stage, type)` the confidence score lies in
`[0.1, 1.0]` and agrees with the claim's formula (start at 1.0, −0.2 / −0.2
/ −0.1 for missing status/stage/type, +0.2 capped at 1.0 for Won/Lost,
floor 0.1), and the stage mapping is total: it always produces one of the
two pipelines and one of the twelve stage labels. -/
theorem C3_confidence_and_totality (status stage ty : String) :
    1/10 ≤ calculateMappingConfidence status stage ty ∧
    calculateMappingConfidence status stage ty ≤ 1 ∧
    calculateMappingConfidence status stage ty = confidenceSpecFormula status stage ty ∧
    (pmMapDealStage status stage ty).1 ∈ ["Studies Pipeline", "Sales Pipeline"] ∧
    (pmMapDealStage status stage ty).2 ∈ pmAllStages := by
  refine ⟨?_, ?_, ?_, ?_, ?_⟩
  · simp only [calculateMappingConfidence]
    exact le_max_left _ _
  · simp only [calculateMappingConfidence]
    split_ifs <;> norm_num
  · simp only [calculateMappingConfidence, confidenceSpecFormula]
    split_ifs <;> norm_num
  · simp only [pmMapDealStage, determinePipeline]
    split_ifs <;> simp
  · have hs : ∀ kv ∈ studiesStageExact, kv.2 ∈ pmAllStages := by decide
    have hl : ∀ kv ∈ salesStageExact, kv.2 ∈ pmAllStages := by decide
    simp only [pmMapDealStage, pmFinalStage]
    split_ifs with h1 h2 h3
    · decide
    · decide
    · cases hf : studiesStageExact.find? (fun kv => kv.1 == stage) with
      | some kv => simpa [hf] using hs kv (List.mem_of_find?_eq_some hf)
      | none => simp [hf]; decide
    · cases hf : salesStageExact.find? (fun kv => kv.1 == stage) with
      | some kv => simpa [hf] using hl kv (List.mem_of_find?_eq_some hf)
      | none => simp [hf]; decide

/-- C9: `margin_percentage` is `net_amount / forecast × 100` exactly when
`forecast > 0` and 0 when `forecast ≤ 0`; `roi_percentage` is
`net_amount / cost × 100` exactly when `cost > 0` and 0 when `cost ≤ 0`.
Both are total functions — the guarded masks mean no division by a
non-positive value is ever evaluated. -/
theorem C9_roi_margin_guards (r : FinanceRow) :
    (0 < r.forecast → marginPercentage r = netAmount r / r.forecast * 100) ∧
    (r.forecast ≤ 0 → marginPercentage r = 0) ∧
    (0 < r.cost → roiPercentage r = netAmount r / r.cost * 100) ∧
    (r.cost ≤ 0 → roiPercentage r = 0) := by
  refine ⟨fun h => ?_, fun h => ?_, fun h => ?_, fun h => ?_⟩
  · simp [marginPercentage, h]
  · simp [marginPercentage, not_lt.mpr h]
  · simp [roiPercentage, h]
  · simp [roiPercentage, not_lt.mpr h]

/-- Closed witness for C9: forecast 1000 and cost 200 give margin 80% and
ROI 400%; zero cost gives ROI exactly 0. -/
theorem C9_roi_margin_guards_witness :
    marginPercentage ⟨1000, 200⟩ = netAmount ⟨1000, 200⟩ / 1000 * 100 ∧
    roiPercentage ⟨1000, 200⟩ = netAmount ⟨1000, 200⟩ / 200 * 100 ∧
    roiPercentage ⟨1000, 0⟩ = 0 :=
  ⟨(C9_roi_margin_guards ⟨1000, 200⟩).1 (by norm_num),
   (C9_roi_margin_guards ⟨1000, 200⟩).2.2.1 (by norm_num),
   (C9_roi_margin_guards ⟨1000, 0⟩).2.2.2 (by norm_num)⟩

/-- C7 (counterexample to the claim as stated): the row with status
`Abandonne`, certainty 50, stage `Qualified` and type `Preetude` is
non-terminal (treated as active, see C1) and non-`Sleap`, yet its stage
text is never matched against the Studies table: the source returns the
flat default `Identified` — neither the matched Studies label
`02-Qualifiée` nor the Studies level-1 `01-Identification`.  And the
confidence is not reduced for unmatched stage text: `Mystery Stage`
(matched by no key of the Sales table, as the `find? = none` equation
shows) maps to the level-1 default with confidence 1, the same value a
perfectly matched stage text (`Identification`) gets. -/
theorem C7_active_stage_cex :
    (transformDealStage ⟨"Abandonne", "Qualified", 50, "Preetude"⟩).stage = "Identified" ∧
    (transformDealStage ⟨"Abandonne", "Qualified", 50, "Preetude"⟩).stage ≠ "02-Qualifiée" ∧
    (transformDealStage ⟨"Abandonne", "Qualified", 50, "Preetude"⟩).stage
      ≠ "01-Identification" ∧
    (activeStageTable "FTK").find?
        (fun kv => strContains (strLower "Mystery Stage") kv.1) = none ∧
    (transformDealStage ⟨"In Progress", "Mystery Stage", 0, "FTK"⟩).stage = "Identified" ∧
    calculateMappingConfidence "In Progress" "Mystery Stage" "FTK" = 1 ∧
    calculateMappingConfidence "In Progress" "Identification" "FTK" = 1 := by
  have h1 : (transformDealStage ⟨"Abandonne", "Qualified", 50, "Preetude"⟩).stage
      = "Identified" := by
    have hle : ¬(50 : ℚ) ≤ 10 := by norm_num
    simp [transformDealStage, hle]
  refine ⟨h1, by rw [h1]; decide, by rw [h1]; decide, by decide, by decide, ?_, ?_⟩
    <;> (simp [calculateMappingConfidence]; norm_num)

/-- C7 (amended): for every non-terminal, non-`Sleap` opportunity row —
status not `Won`/`Lost`/`NoGo`/`Sleap`, and certainty above 10 when the
status is `Abandonne`/`Abandonnee` — the mapping is total (never an
error) and behaves as follows: a row whose status is `In Progress` or
empty is routed to the active-stage lookup, where the stage text is
matched after lower-casing (case-insensitively: the match depends only on
the lower-cased text) against the fixed stage table of the selected
pipeline, and any unmatched stage text maps to level 1 of the active
pipeline (`01-Identification` for Studies, `Identified` for Sales) with
deal status `In Progress`; every other such row bypasses the stage lookup
entirely and maps to the flat default `Identified` with status
`In Progress`, regardless of its stage text and pipeline.  The mapping
confidence is not changed by the match outcome — it depends only on which
of status/stage/type are empty. -/
theorem C7_active_stage_mapping (status stage stage2 ty : String) (c : ℚ)
    (hW : status ≠ "Won") (hL : status ≠ "Lost") (hN : status ≠ "NoGo")
    (hS : status ≠ "Sleap")
    (hab : status = "Abandonne" ∨ status = "Abandonnee" → 10 < c) :
    ((status = "In Progress" ∨ status = "") →
      transformDealStage ⟨status, stage, c, ty⟩ = mapActiveStage stage ty) ∧
    (status ≠ "In Progress" → status ≠ "" →
      transformDealStage ⟨status, stage, c, ty⟩
        = ⟨"Identified", "In Progress", "Default mapping applied"⟩) ∧
    ((∀ kv ∈ activeStageTable ty, strContains (strLower stage) kv.1 = false) →
      (mapActiveStage stage ty).stage
          = (if ty = "Preetude" then "01-Identification" else "Identified") ∧
        (mapActiveStage stage ty).status = "In Progress") ∧
    (strLower stage = strLower stage2 →
      mapActiveStage stage ty = mapActiveStage stage2 ty) ∧
    ((stage = "" ↔ stage2 = "") →
      calculateMappingConfidence status stage ty
        = calculateMappingConfidence status stage2 ty) := by
  refine ⟨fun hact => ?_, fun hip hemp => ?_, fun hmiss => ?_, fun he => ?_, fun hiff => ?_⟩
  · rcases hact with rfl | rfl <;> simp [transformDealStage]
  · have hA : ¬((status = "Abandonne" ∨ status = "Abandonnee") ∧ c ≤ 10) := by
      rintro ⟨hor, hle⟩
      exact absurd hle (not_le.mpr (hab hor))
    simp [transformDealStage, hA, hW, hL, hN, hS, hip, hemp]
  · have hfind : (activeStageTable ty).find?
        (fun kv => strContains (strLower stage) kv.1) = none :=
      List.find?_eq_none.mpr (fun kv hkv => by simp [hmiss kv hkv])
    constructor
    · simp only [mapActiveStage, hfind]
      split_ifs <;> rfl
    · simp only [mapActiveStage, hfind]
      split_ifs <;> rfl
  · simp only [mapActiveStage, he]
  · by_cases h1 : stage = ""
    · have h2 := hiff.mp h1
      simp [calculateMappingConfidence, h1, h2]
    · have h2 : ¬stage2 = "" := fun hx => h1 (hiff.mpr hx)
      simp [calculateMappingConfidence, h1, h2]

/-- Closed witness for the amended C7 at concrete inputs: `Mystery Stage`
is unmatched and maps to `Identified`, matching is insensitive to case,
the confidence equals the one of a matched stage text, and the
non-terminal status `Abandonne` with certainty 50 takes the flat default
even on a Studies-typed (`Preetude`) row. -/
theorem C7_active_stage_mapping_witness :
    (transformDealStage ⟨"In Progress", "Mystery Stage", 50, "FTK"⟩).stage = "Identified" ∧
    mapActiveStage "Mystery Stage" "FTK" = mapActiveStage "MYSTERY STAGE" "FTK" ∧
    calculateMappingConfidence "In Progress" "Mystery Stage" "FTK"
      = calculateMappingConfidence "In Progress" "Identification" "FTK" ∧
    transformDealStage ⟨"Abandonne", "Qualified", 50, "Preetude"⟩
      = ⟨"Identified", "In Progress", "Default mapping applied"⟩ := by
  have h := C7_active_stage_mapping "In Progress" "Mystery Stage" "MYSTERY STAGE" "FTK" 50
    (by decide) (by decide) (by decide) (by decide) (fun hx => by norm_num)
  have h2 := C7_active_stage_mapping "In Progress" "Mystery Stage" "Identification" "FTK" 50
    (by decide) (by decide) (by decide) (by decide) (fun hx => by norm_num)
  have hb := C7_active_stage_mapping "Abandonne" "Qualified" "Qualified" "Preetude" 50
    (by decide) (by decide) (by decide) (by decide) (fun hx => by norm_num)
  refine ⟨?_, h.2.2.2.1 (by decide), h2.2.2.2.2 (by decide),
    hb.2.1 (by decide) (by decide)⟩
  rw [h.1 (Or.inl rfl)]
  simpa using (h.2.2.1 (by decide)).1

/-- C8 (counterexample to the claim as stated): the recorded miss status
string is `NO_CONTACT_FOUND`, not the claim's literal `NOT_FOUND`, on a
row with a known company id (1) and an unknown contact id (99). -/
theorem C8_not_found_literal_cex :
    communicationStatuses demoCompanyRecs demoContactRecs demoCommRow
      = ("SUCCESS", "NO_CONTACT_FOUND") ∧
    (communicationStatuses demoCompanyRecs demoContactRecs demoCommRow).2 ≠ "NOT_FOUND" := by
  constructor <;> decide

/-- C8 (amended): each target's resolution is an exact-id lookup recorded
independently and total (never raising on a miss): a row whose company id
is known gets `company_association_status = SUCCESS` while an unknown
contact id on the same row gets `contact_association_status =
NO_CONTACT_FOUND`, and neither outcome depends on the other lookup's
table. -/
theorem C8_independent_resolution (companies : List CompanyRec)
    (contacts : List ContactRec) (row : CommRow) (cid pid : ℕ)
    (hc : row.companyId = some cid) (hcomp : ∃ cr ∈ companies, cr.id = cid)
    (hp : row.personId = some pid) (hmiss : ∀ pr ∈ contacts, pr.id ≠ pid) :
    communicationStatuses companies contacts row = ("SUCCESS", "NO_CONTACT_FOUND") ∧
    (∀ contacts2 : List ContactRec,
      (communicationStatuses companies contacts2 row).1 = "SUCCESS") ∧
    (∀ companies2 : List CompanyRec,
      (communicationStatuses companies2 contacts row).2 = "NO_CONTACT_FOUND") := by
  have h1 : companies.any (fun c => c.id == cid) = true := by
    obtain ⟨cr, hm, he⟩ := hcomp
    exact List.any_eq_true.mpr ⟨cr, hm, by simp [he]⟩
  have h2 : contacts.any (fun p => p.id == pid) = false := by
    cases hx : contacts.any (fun p => p.id == pid) with
    | false => rfl
    | true =>
      obtain ⟨pr, hm, he⟩ := List.any_eq_true.mp hx
      exact absurd (by simpa using he) (hmiss pr hm)
  refine ⟨?_, fun contacts2 => ?_, fun companies2 => ?_⟩
  · simp [communicationStatuses, companyAssociationStatus, contactAssociationStatus,
      hc, hp, h1, h2]
  · simp [communicationStatuses, companyAssociationStatus, hc, h1]
  · simp [communicationStatuses, contactAssociationStatus, hp, h2]

/-- Closed witness for the amended C8 on the demo lookups. -/
theorem C8_independent_resolution_witness :
    communicationStatuses demoCompanyRecs demoContactRecs demoCommRow
      = ("SUCCESS", "NO_CONTACT_FOUND") :=
  (C8_independent_resolution demoCompanyRecs demoContactRecs demoCommRow 1 99
    rfl ⟨⟨1, "Acme"⟩, by decide, rfl⟩ rfl (by decide)).1

/-- C10: every social-network row whose link is the `#AUTO#` placeholder
is dropped before resolution — no output record carries it, the output
length is exactly the number of non-placeholder rows, and the presence of
any placeholder row makes the output strictly shorter than the input. -/
theorem C10_auto_filter (rows : List SocialRow) (companies : List CompanyRec)
    (contacts : List ContactRec) :
    (∀ a ∈ processSocialNetworks rows companies contacts, a.networkLink ≠ "#AUTO#") ∧
    (processSocialNetworks rows companies contacts).length =
      (rows.filter (fun r => r.link != "#AUTO#")).length ∧
    (∀ r ∈ rows, r.link = "#AUTO#" →
      (processSocialNetworks rows companies contacts).length < rows.length) := by
  refine ⟨fun a ha => ?_, by simp [processSocialNetworks], fun r hr hlink => ?_⟩
  · obtain ⟨r, hr, rfl⟩ := List.mem_map.mp ha
    have hpred := (List.mem_filter.mp hr).2
    simpa [mkSocialAssoc] using hpred
  · simp only [processSocialNetworks, List.length_map]
    refine lt_of_le_of_ne (List.length_filter_le _ _) (fun heq => ?_)
    have habs := List.filter_length_eq_length.mp heq r hr
    simp [hlink] at habs

/-- Closed witness for C10: the demo social rows contain one `#AUTO#`
placeholder, so the output is strictly shorter than the input. -/
theorem C10_auto_filter_witness :
    (processSocialNetworks demoSocialRows demoCompanyRecs demoContactRecs).length
      < demoSocialRows.length :=
  (C10_auto_filter demoSocialRows demoCompanyRecs demoContactRecs).2.2
    ⟨"#AUTO#", 5, 1⟩ (by decide) rfl

end ICAlps
